import Mathlib

/-!
Shallow embedding of the error-normalization layer of the linodego client
(`errors.go`): the response classifier `coupleAPIErrors`, the error-value
normalizer `NewError`, and the status matcher `ErrHasStatus`/`IsNotFound`,
together with the data model (`Error`, `APIError`, `APIErrorReason`) and a
model of the parts of `net/http` the code touches (`http.Response`,
`http.Request`, header lookup, and a consumable body stream).

The body-decoding helper `getAPIError` is referenced by `errors.go` but its
definition is not part of the sources; it is modelled from the spec as a
non-destructive JSON decode, abstracted over the concrete decoding function
`decode : String → Option APIError` (absence of the errors key or an
unparseable body yield `none`).
-/

namespace Linodego

/-- Sentinel code `ErrorUnsupported = 0` (first value of the Go `iota` block). -/
def ErrorUnsupported : Nat := 0

/-- Sentinel code `ErrorFromString = 1`: Errors created by string types. -/
def ErrorFromString : Nat := 1

/-- Sentinel code `ErrorFromError = 2`: Errors created by error types. -/
def ErrorFromError : Nat := 2

/-- Sentinel code `ErrorFromStringer = 3`: Errors created by fmt.Stringer types. -/
def ErrorFromStringer : Nat := 3

/-- Model of the request header map: the code only ever reads
`Header.Get("Accept")`, so the map is modelled by the string that lookup
returns (`""` when the key is absent, folding in Go's `Get` default). -/
structure Headers where
  Accept : String
  deriving DecidableEq, Repr

/-- Model of `http.Request`: the code only reads `Request.Header`, which may
be nil. -/
structure Request where
  Header : Option Headers
  deriving DecidableEq, Repr

/-- Model of a consumable body stream (`io.ReadCloser`). `readable s` is a
fresh stream whose remaining bytes are `s`; `exhausted` is a stream that was
read to the end; `unreadable m` is a stream whose read fails with error
message `m`. -/
inductive Body where
  | readable (content : String)
  | exhausted
  | unreadable (msg : String)
  deriving DecidableEq, Repr

/-- Model of `io.ReadAll`: returns the remaining bytes and the stream state
after the read, or a read-error message. -/
def readAll : Body → Except String (String × Body)
  | .readable s => .ok (s, .exhausted)
  | .exhausted => .ok ("", .exhausted)
  | .unreadable m => .error m

/-- Model of `http.Response`: the status code, the response `Content-Type`
header (the only response header the code reads, `""` when absent), the
originating request (nilable) and the body stream (nilable). -/
structure Response where
  StatusCode : Nat
  ContentType : String
  Request : Option Request
  Body : Option Body
  deriving DecidableEq, Repr

/-- The canonical `linodego.Error`: wraps the error with the relevant
`http.Response`. -/
structure Error where
  Response : Option Response
  Code : Nat
  Message : String
  deriving DecidableEq, Repr

/-- Method `(err Error) StatusCode() int`. -/
def Error.StatusCode (err : Error) : Nat :=
  err.Code

/-- An individual invalid request message returned by the Linode API. -/
structure APIErrorReason where
  Reason : String
  Field : String
  deriving DecidableEq, Repr

/-- Method `(r APIErrorReason) Error() string`: `[field] reason` when the
field is non-empty, else just the reason. -/
def APIErrorReason.Error (r : APIErrorReason) : String :=
  if r.Field.length = 0 then r.Reason
  else "[" ++ r.Field ++ "] " ++ r.Reason

/-- The error-set returned by the Linode API when presented with an invalid
request. -/
structure APIError where
  Errors : List APIErrorReason
  deriving DecidableEq, Repr

/-- Method `(e APIError) Error() string`: every reason rendered, joined by
`"; "`. -/
def APIError.Error (e : APIError) : String :=
  String.intercalate "; " (e.Errors.map APIErrorReason.Error)

/-- Modelled from the spec: `getAPIError` (referenced by `errors.go` but
defined outside the given sources) attempts a structured, non-destructive
decode of the response body into an `APIError`; a nil or exhausted or
unreadable body, the absence of the errors key, or an unparseable body are
failure-to-decode conditions.  The concrete JSON decoding of the raw bytes
is abstracted as the parameter `decode`. -/
def getAPIError (decode : String → Option APIError) (r : Response) : Option APIError :=
  match r.Body with
  | some (.readable s) => decode s
  | _ => none

/-- The dynamic value passed to `NewError` (Go `any`), classified by the
arm of the type switch in `NewError` that it selects.  `goError` carries the
value's error description and, when the value also implements
`fmt.Stringer`, its string rendering (the type switch tests `error` first,
so the rendering is never used); `stringer` is a value implementing
`fmt.Stringer` but not `error`; `other` carries the `reflect.TypeOf` name of
a value matching none of the cases.  Typed-nil interface values are not
modelled. -/
inductive GoValue where
  | goNil
  | canonical (e : Error)
  | response (r : Response)
  | goError (msg : String) (stringerRendering : Option String)
  | goString (s : String)
  | stringer (s : String)
  | other (typeName : String)
  deriving DecidableEq, Repr

/-- `NewError` creates a `linodego.Error` with a Code identifying the source
type: pass-through for `*Error`, the status code and rendered `APIError` for
an `*http.Response`, and the sentinel codes for error, string and Stringer
values. -/
def NewError (decode : String → Option APIError) : GoValue → Option Error
  | .goNil => none
  | .canonical e => some e
  | .response r =>
    match getAPIError decode r with
    | none => some ⟨none, ErrorUnsupported, "Unexpected HTTP Error Response, no error"⟩
    | some apiError => some ⟨some r, r.StatusCode, apiError.Error⟩
  | .goError msg _ => some ⟨none, ErrorFromError, msg⟩
  | .goString s => some ⟨none, ErrorFromString, s⟩
  | .stringer s => some ⟨none, ErrorFromStringer, s⟩
  | .other typeName =>
    some ⟨none, ErrorUnsupported, "Unsupported type to linodego.NewError: " ++ typeName⟩

/-- The transport error handed to `coupleAPIErrors` (a non-nil Go `error`):
either a `*linodego.Error` from an earlier normalization or any other error
value, identified by its description. -/
inductive TransportErr where
  | canonical (e : Error)
  | generic (msg : String)
  deriving DecidableEq, Repr

/-- The `GoValue` a `TransportErr` presents to `NewError`'s type switch. -/
def TransportErr.toGoValue : TransportErr → GoValue
  | .canonical e => .canonical e
  | .generic msg => .goError msg none

/-- The expected content type computed by `coupleAPIErrors`: the request's
`Accept` header when the request and its header map are non-nil, else `""`. -/
def expectedContentType (r : Response) : String :=
  match r.Request with
  | none => ""
  | some req =>
    match req.Header with
    | none => ""
    | some h => h.Accept

/-- Model of `http.StatusText(http.StatusBadGateway)`. -/
def statusTextBadGateway : String := "Bad Gateway"

/-- The outcome of `coupleAPIErrors`: the returned response, the returned
error, and the state of the response object passed in after the call (the
Go function mutates `resp.Body` in place on the content-type-mismatch path;
everything else is threaded unchanged). -/
structure CoupleResult where
  resp : Option Response
  err : Option Error
  finalResp : Option Response
  deriving DecidableEq, Repr

/-- `coupleAPIErrors`: the response classifier.  Short-circuits a non-nil
transport error and a nil response; passes 2xx responses through; for other
status codes follows the precedence 502-with-text/html, content-type
mismatch (reading and restoring the body), structured decode (empty reason
list is success, otherwise `NewError` on the response). -/
def coupleAPIErrors (decode : String → Option APIError)
    (resp : Option Response) (err : Option TransportErr) : CoupleResult :=
  match err with
  | some t => ⟨none, NewError decode t.toGoValue, resp⟩
  | none =>
    match resp with
    | none => ⟨none, NewError decode (.goError "response is nil" none), none⟩
    | some r =>
      if r.StatusCode < 200 ∨ 300 ≤ r.StatusCode then
        if r.StatusCode = 502 ∧ r.ContentType = "text/html" then
          ⟨none, some ⟨some r, 502, statusTextBadGateway⟩, some r⟩
        else if r.ContentType ≠ expectedContentType r then
          match r.Body with
          | none => ⟨none, NewError decode (.goError "response body is nil" none), some r⟩
          | some b =>
            match readAll b with
            | .error readErr =>
              ⟨none,
               NewError decode (.goError ("failed to read response body: " ++ readErr) none),
               some { r with Body := some b }⟩
            | .ok (bodyBytes, _) =>
              ⟨none,
               some ⟨none, r.StatusCode,
                 "Unexpected Content-Type: Expected: " ++ expectedContentType r
                   ++ ", Received: " ++ r.ContentType
                   ++ "\nResponse body: " ++ bodyBytes⟩,
               some { r with Body := some (.readable bodyBytes) }⟩
        else
          match getAPIError decode r with
          | none =>
            -- `fmt.Errorf("failed to decode response body: %w", err)` with a
            -- nil `err` renders the verb as `%!w(<nil>)`.
            ⟨none,
             NewError decode (.goError "failed to decode response body: %!w(<nil>)" none),
             some r⟩
          | some apiError =>
            if apiError.Errors = [] then ⟨some r, none, some r⟩
            else ⟨none, NewError decode (.response r), some r⟩
      else ⟨some r, none, some r⟩

/-- A Go `error` value as seen by `errors.As`: either a `*linodego.Error`,
an error that wraps nothing, or an error wrapping an inner error (as built
by `fmt.Errorf` with `%w`). -/
inductive ErrChain where
  | canonical (e : Error)
  | leaf (msg : String)
  | wrap (msg : String) (inner : ErrChain)
  deriving DecidableEq, Repr

/-- Model of `errors.As(err, &e)` with `e : *linodego.Error`: walk the
unwrap chain and return the first `*Error` found. -/
def errorsAs : ErrChain → Option Error
  | .canonical e => some e
  | .leaf _ => none
  | .wrap _ inner => errorsAs inner

/-- `ErrHasStatus` checks whether `err` resolves to a `linodego.Error`
carrying one of the given HTTP status codes; false for a nil error or an
empty code list. -/
def ErrHasStatus (err : Option ErrChain) (code : List Nat) : Bool :=
  match err with
  | none => false
  | some c =>
    if code.isEmpty then false
    else
      match errorsAs c with
      | none => false
      | some e => code.contains e.StatusCode

/-- `IsNotFound` indicates a 404 Not Found error from the Linode API
(`http.StatusNotFound = 404`). -/
def IsNotFound (err : Option ErrChain) : Bool :=
  ErrHasStatus err [404]

/-! Concrete fixtures used to evaluate the definitions on closed inputs. -/

/-- A decoder that parses the body text of `gatewayResp` into one reason. -/
def decodeBoom : String → Option APIError := fun s =>
  if s = "gateway page" then some ⟨[⟨"boom", ""⟩]⟩ else none

/-- A decoder that parses any body into an empty reason list. -/
def decodeEmptyList : String → Option APIError := fun _ => some ⟨[]⟩

/-- A decoder that always fails. -/
def decodeNever : String → Option APIError := fun _ => none

/-- A decoder for the body text of `badRequestResp`. -/
def decodeEntity : String → Option APIError := fun s =>
  if s = "entity json" then some ⟨[⟨"Entity ID is required", "entity_ids"⟩]⟩ else none

/-- A 502 response declaring `text/html`, from a request that also accepts
`text/html`, whose body decodes (under `decodeBoom`) to one reason. -/
def gatewayResp : Response :=
  ⟨502, "text/html", some ⟨some ⟨"text/html"⟩⟩, some (.readable "gateway page")⟩

/-- A 400 response whose content type matches the request's `Accept` header
and whose body decodes (under `decodeEntity`) to one reason. -/
def badRequestResp : Response :=
  ⟨400, "application/json", some ⟨some ⟨"application/json"⟩⟩, some (.readable "entity json")⟩

/-- A 400 response whose content type differs from the request's `Accept`
header, with a readable body. -/
def mismatchResp : Response :=
  ⟨400, "text/plain", some ⟨some ⟨"application/json"⟩⟩, some (.readable "server overloaded")⟩

/-- A 400 response with a content-type mismatch and a nil body. -/
def nilBodyResp : Response :=
  ⟨400, "text/plain", some ⟨some ⟨"application/json"⟩⟩, none⟩

/-- A 400 response with a content-type mismatch and an unreadable body. -/
def unreadableResp : Response :=
  ⟨400, "text/plain", some ⟨some ⟨"application/json"⟩⟩, some (.unreadable "read failed")⟩

/-- Claim C3: `NewError` dispatches by runtime type: nil input yields nil; a
plain string `s` yields code `ErrorFromString = 1` and message `s`; an error
value yields code `ErrorFromError = 2` and its error description even when
the value also implements `fmt.Stringer` (the rendering is ignored); a
Stringer-only value yields code `ErrorFromStringer = 3` and its rendering;
any other value yields code `ErrorUnsupported = 0` and a message naming the
type; an already-canonical error passes through unchanged. -/
theorem spec_C3 (decode : String → Option APIError) :
    NewError decode .goNil = none
    ∧ (∀ e : Error, NewError decode (.canonical e) = some e)
    ∧ (∀ s : String, NewError decode (.goString s) = some ⟨none, ErrorFromString, s⟩
        ∧ ErrorFromString = 1)
    ∧ (∀ msg : String, ∀ sr : Option String,
        NewError decode (.goError msg sr) = some ⟨none, ErrorFromError, msg⟩
        ∧ ErrorFromError = 2)
    ∧ (∀ s : String, NewError decode (.stringer s) = some ⟨none, ErrorFromStringer, s⟩
        ∧ ErrorFromStringer = 3)
    ∧ (∀ typeName : String, NewError decode (.other typeName)
        = some ⟨none, ErrorUnsupported, "Unsupported type to linodego.NewError: " ++ typeName⟩
        ∧ ErrorUnsupported = 0) :=
  ⟨rfl, fun _ => rfl, fun _ => ⟨rfl, rfl⟩, fun _ _ => ⟨rfl, rfl⟩, fun _ => ⟨rfl, rfl⟩,
   fun _ => ⟨rfl, rfl⟩⟩

/-- Claim C7: a non-nil response with a 2xx status code and a nil transport
error is returned as-is with a nil error, whatever its body, request headers
or content type, and the response object is left untouched. -/
theorem spec_C7 (decode : String → Option APIError) (r : Response)
    (h : 200 ≤ r.StatusCode ∧ r.StatusCode < 300) :
    coupleAPIErrors decode (some r) none = ⟨some r, none, some r⟩ := by
  simp only [coupleAPIErrors]
  rw [if_neg (by omega)]

/-- Witness for C7: a concrete 200 response is passed through. -/
theorem spec_C7_witness :
    (200 ≤ (⟨200, "text/html", none, none⟩ : Response).StatusCode
        ∧ (⟨200, "text/html", none, none⟩ : Response).StatusCode < 300)
    ∧ coupleAPIErrors decodeNever (some ⟨200, "text/html", none, none⟩) none
        = ⟨some ⟨200, "text/html", none, none⟩, none, some ⟨200, "text/html", none, none⟩⟩ :=
  ⟨by decide, spec_C7 decodeNever ⟨200, "text/html", none, none⟩ (by decide)⟩

/-- Claim C8: `NewError` is idempotent: an already-canonical error is
returned unchanged, and whenever `NewError` produces a non-nil canonical
error, normalizing that result again yields the same value. -/
theorem spec_C8 (decode : String → Option APIError) :
    (∀ e : Error, NewError decode (.canonical e) = some e)
    ∧ (∀ x : GoValue, ∀ e : Error, NewError decode x = some e →
        NewError decode (.canonical e) = NewError decode x) :=
  ⟨fun _ => rfl, fun _ e h => by rw [h]; rfl⟩

/-- Witness for C8: normalizing the result of normalizing a concrete string
yields the same canonical error. -/
theorem spec_C8_witness :
    NewError decodeNever (.goString "disk full") = some ⟨none, 1, "disk full"⟩
    ∧ NewError decodeNever (.canonical ⟨none, 1, "disk full"⟩)
        = NewError decodeNever (.goString "disk full") :=
  ⟨rfl, (spec_C8 decodeNever).2 (.goString "disk full") ⟨none, 1, "disk full"⟩ rfl⟩

/-- Claim C9: `ErrHasStatus` is false on a nil error and on an empty code
list; otherwise it is true exactly when the error resolves through its
wrapping chain to a canonical `Error` whose code is among the supplied
codes; and `IsNotFound` is `ErrHasStatus` at the single code 404. -/
theorem spec_C9 :
    (∀ codes : List Nat, ErrHasStatus none codes = false)
    ∧ (∀ err : Option ErrChain, ErrHasStatus err [] = false)
    ∧ (∀ err : Option ErrChain, ∀ codes : List Nat,
        ErrHasStatus err codes = true
          ↔ ∃ c : ErrChain, ∃ e : Error,
              err = some c ∧ errorsAs c = some e ∧ e.Code ∈ codes)
    ∧ (∀ err : Option ErrChain, IsNotFound err = ErrHasStatus err [404]) := by
  refine ⟨fun codes => rfl, fun err => ?_, fun err codes => ?_, fun err => rfl⟩
  · cases err <;> simp [ErrHasStatus]
  · cases err with
    | none => simp [ErrHasStatus]
    | some c =>
      simp only [ErrHasStatus]
      by_cases hemp : codes.isEmpty
      · rw [List.isEmpty_iff] at hemp
        subst hemp
        simp
      · rw [if_neg hemp]
        cases hAs : errorsAs c with
        | none => simp [hAs]
        | some e =>
          simp only [hAs, Error.StatusCode, List.elem_iff]
          constructor
          · intro hmem
            exact ⟨c, e, rfl, hAs, by simpa using hmem⟩
          · rintro ⟨c2, e2, hc, he, hmem⟩
            cases hc
            rw [hAs] at he
            cases he
            simpa using hmem

/-- Claim C10: for every input pair, `coupleAPIErrors` returns exactly one
non-nil result: the returned response is nil exactly when the returned
error is non-nil. -/
theorem spec_C10 (decode : String → Option APIError)
    (resp : Option Response) (err : Option TransportErr) :
    ((coupleAPIErrors decode resp err).resp = none
      ↔ (coupleAPIErrors decode resp err).err ≠ none) := by
  cases err with
  | some t =>
    cases t <;> simp [coupleAPIErrors, TransportErr.toGoValue, NewError]
  | none =>
    cases resp with
    | none => simp [coupleAPIErrors, NewError]
    | some r =>
      simp only [coupleAPIErrors]
      split
      · split
        · simp
        · split
          · split
            · simp [NewError]
            · split <;> simp [NewError]
          · split
            · simp [NewError]
            · split
              · simp
              · simp only [NewError]
                split <;> simp
      · simp

/-- Claim C6: a 502 response declaring content type `text/html` is classified
as the canonical error with code 502 and the standard status text
`"Bad Gateway"`; the body is neither read nor parsed: the result does not
depend on the decoder and the response object is left untouched. -/
theorem spec_C6 (decode decode2 : String → Option APIError) (r : Response)
    (h502 : r.StatusCode = 502) (hct : r.ContentType = "text/html") :
    coupleAPIErrors decode (some r) none
        = ⟨none, some ⟨some r, 502, statusTextBadGateway⟩, some r⟩
    ∧ statusTextBadGateway = "Bad Gateway"
    ∧ coupleAPIErrors decode (some r) none = coupleAPIErrors decode2 (some r) none := by
  refine ⟨?_, rfl, ?_⟩ <;> simp [coupleAPIErrors, h502, hct]

/-- Witness for C6: the concrete 502 `text/html` response is classified as
the Bad Gateway error under two different decoders. -/
theorem spec_C6_witness :
    gatewayResp.StatusCode = 502
    ∧ gatewayResp.ContentType = "text/html"
    ∧ (coupleAPIErrors decodeBoom (some gatewayResp) none
        = ⟨none, some ⟨some gatewayResp, 502, statusTextBadGateway⟩, some gatewayResp⟩
      ∧ statusTextBadGateway = "Bad Gateway"
      ∧ coupleAPIErrors decodeBoom (some gatewayResp) none
          = coupleAPIErrors decodeNever (some gatewayResp) none) :=
  ⟨rfl, rfl, spec_C6 decodeBoom decodeNever gatewayResp rfl rfl⟩

/-- Claim C4: on a non-2xx response (other than the 502 `text/html` case)
whose content type differs from the one the request declared via its
`Accept` header, classification returns the mismatch error carrying the raw
status code and a message embedding the expected content type, the received
content type and the literal raw body; when the body is nil or unreadable it
instead returns the internal wrapped error (code `ErrorFromError = 2` with
the wrapping message). -/
theorem spec_C4 (decode : String → Option APIError) (r : Response)
    (hstatus : r.StatusCode < 200 ∨ 300 ≤ r.StatusCode)
    (hnot502 : ¬(r.StatusCode = 502 ∧ r.ContentType = "text/html"))
    (hmismatch : r.ContentType ≠ expectedContentType r) :
    (∀ s : String, r.Body = some (.readable s) →
      (coupleAPIErrors decode (some r) none).err
          = some ⟨none, r.StatusCode,
              "Unexpected Content-Type: Expected: " ++ expectedContentType r
                ++ ", Received: " ++ r.ContentType
                ++ "\nResponse body: " ++ s⟩
        ∧ (coupleAPIErrors decode (some r) none).resp = none)
    ∧ (r.Body = none →
        (coupleAPIErrors decode (some r) none).err
          = some ⟨none, ErrorFromError, "response body is nil"⟩)
    ∧ (∀ m : String, r.Body = some (.unreadable m) →
        (coupleAPIErrors decode (some r) none).err
          = some ⟨none, ErrorFromError, "failed to read response body: " ++ m⟩) := by
  refine ⟨fun s hbody => ?_, fun hbody => ?_, fun m hbody => ?_⟩ <;>
    simp [coupleAPIErrors, if_pos hstatus, if_neg hnot502, hmismatch, hbody, readAll, NewError]

/-- Witness for C4: concrete mismatching 400 responses with a readable body,
a nil body and an unreadable body. -/
theorem spec_C4_witness :
    (coupleAPIErrors decodeNever (some mismatchResp) none).err
        = some ⟨none, 400,
            "Unexpected Content-Type: Expected: application/json, Received: text/plain"
              ++ "\nResponse body: server overloaded"⟩
    ∧ (coupleAPIErrors decodeNever (some nilBodyResp) none).err
        = some ⟨none, 2, "response body is nil"⟩
    ∧ (coupleAPIErrors decodeNever (some unreadableResp) none).err
        = some ⟨none, 2, "failed to read response body: read failed"⟩ := by
  refine ⟨?_, ?_, ?_⟩
  · exact ((spec_C4 decodeNever mismatchResp (by decide) (by decide) (by decide)).1
      "server overloaded" rfl).1
  · exact (spec_C4 decodeNever nilBodyResp (by decide) (by decide) (by decide)).2.1 rfl
  · exact (spec_C4 decodeNever unreadableResp (by decide) (by decide) (by decide)).2.2
      "read failed" rfl

/-- Claim C5: whenever the classifier reads the body to build the
content-type-mismatch diagnostic, it puts a fresh readable stream holding
exactly the bytes it read back onto the response object before returning, so
a later read of the returned response object yields those original bytes
once more. -/
theorem spec_C5 (decode : String → Option APIError) (r : Response)
    (b : Body) (s : String) (b2 : Body)
    (hstatus : r.StatusCode < 200 ∨ 300 ≤ r.StatusCode)
    (hnot502 : ¬(r.StatusCode = 502 ∧ r.ContentType = "text/html"))
    (hmismatch : r.ContentType ≠ expectedContentType r)
    (hbody : r.Body = some b) (hread : readAll b = .ok (s, b2)) :
    (coupleAPIErrors decode (some r) none).finalResp
        = some { r with Body := some (.readable s) }
    ∧ readAll (.readable s) = .ok (s, .exhausted) := by
  refine ⟨?_, rfl⟩
  simp [coupleAPIErrors, if_pos hstatus, if_neg hnot502, hmismatch, hbody, hread]

/-- Witness for C5: after classifying the concrete mismatching response, the
response object carries a fresh readable stream with the original bytes. -/
theorem spec_C5_witness :
    (coupleAPIErrors decodeNever (some mismatchResp) none).finalResp
        = some { mismatchResp with Body := some (.readable "server overloaded") }
    ∧ readAll (.readable "server overloaded") = .ok ("server overloaded", .exhausted) :=
  spec_C5 decodeNever mismatchResp (.readable "server overloaded") "server overloaded"
    .exhausted (by decide) (by decide) (by decide) rfl rfl

/-- Claim C1, counterexample: a 502 response declaring `text/html` from a
request that accepts `text/html` meets all hypotheses of the claim (non-2xx
status, content type equal to the Accept header, body decoding to one
reason), yet the classifier returns the short-circuit message
`"Bad Gateway"`, not the joined reasons `"boom"`. -/
theorem spec_C1_counterexample :
    (gatewayResp.StatusCode < 200 ∨ 300 ≤ gatewayResp.StatusCode)
    ∧ gatewayResp.ContentType = expectedContentType gatewayResp
    ∧ getAPIError decodeBoom gatewayResp = some ⟨[⟨"boom", ""⟩]⟩
    ∧ (⟨[⟨"boom", ""⟩]⟩ : APIError).Errors ≠ []
    ∧ (coupleAPIErrors decodeBoom (some gatewayResp) none).err
        = some ⟨some gatewayResp, 502, "Bad Gateway"⟩
    ∧ APIError.Error ⟨[⟨"boom", ""⟩]⟩ = "boom"
    ∧ "Bad Gateway" ≠ "boom" := by decide

/-- Claim C1 (amended): for every response with a non-2xx status code —
excluding the case of status 502 with content type `text/html` — whose
content type equals the request's Accept header and whose body decodes to a
structured API error with at least one reason, the classifier returns the
canonical error whose code is the response's status code and whose message
is all reasons joined by `"; "`, each rendered as `[field] reason` when its
field is non-empty and as `reason` otherwise. -/
theorem spec_C1_amended (decode : String → Option APIError) (r : Response)
    (apiError : APIError)
    (hstatus : r.StatusCode < 200 ∨ 300 ≤ r.StatusCode)
    (hnot502 : ¬(r.StatusCode = 502 ∧ r.ContentType = "text/html"))
    (hct : r.ContentType = expectedContentType r)
    (hdec : getAPIError decode r = some apiError)
    (hne : apiError.Errors ≠ []) :
    (coupleAPIErrors decode (some r) none).err
        = some ⟨some r, r.StatusCode, apiError.Error⟩
    ∧ apiError.Error = String.intercalate "; " (apiError.Errors.map APIErrorReason.Error)
    ∧ ∀ x ∈ apiError.Errors,
        x.Error = if x.Field.length = 0 then x.Reason
                  else "[" ++ x.Field ++ "] " ++ x.Reason := by
  refine ⟨?_, rfl, fun x _ => rfl⟩
  have hcne : ¬(r.ContentType ≠ expectedContentType r) := not_not_intro hct
  simp [coupleAPIErrors, if_pos hstatus, if_neg hnot502, hcne, hdec, hne, NewError]

/-- Witness for C1: the concrete 400 response whose body decodes to the
single reason `Entity ID is required` on field `entity_ids` yields the
canonical error with code 400 and message `[entity_ids] Entity ID is
required`. -/
theorem spec_C1_witness :
    ((badRequestResp.StatusCode < 200 ∨ 300 ≤ badRequestResp.StatusCode)
      ∧ ¬(badRequestResp.StatusCode = 502 ∧ badRequestResp.ContentType = "text/html")
      ∧ badRequestResp.ContentType = expectedContentType badRequestResp
      ∧ getAPIError decodeEntity badRequestResp
          = some ⟨[⟨"Entity ID is required", "entity_ids"⟩]⟩)
    ∧ (coupleAPIErrors decodeEntity (some badRequestResp) none).err
        = some ⟨some badRequestResp, badRequestResp.StatusCode,
            APIError.Error ⟨[⟨"Entity ID is required", "entity_ids"⟩]⟩⟩
    ∧ APIError.Error ⟨[⟨"Entity ID is required", "entity_ids"⟩]⟩
        = "[entity_ids] Entity ID is required" := by
  refine ⟨⟨by decide, by decide, by decide, by decide⟩, ?_, by decide⟩
  exact (spec_C1_amended decodeEntity badRequestResp
    ⟨[⟨"Entity ID is required", "entity_ids"⟩]⟩
    (by decide) (by decide) (by decide) (by decide) (by decide)).1

/-- Claim C2, counterexample: a 502 response declaring `text/html` from a
request that accepts `text/html` has a matching content type and a body
decoding to zero reasons, yet the classifier returns a non-nil error and a
nil response instead of `(response, nil)`. -/
theorem spec_C2_counterexample :
    (gatewayResp.StatusCode < 200 ∨ 300 ≤ gatewayResp.StatusCode)
    ∧ gatewayResp.ContentType = expectedContentType gatewayResp
    ∧ getAPIError decodeEmptyList gatewayResp = some ⟨[]⟩
    ∧ (coupleAPIErrors decodeEmptyList (some gatewayResp) none).resp = none
    ∧ (coupleAPIErrors decodeEmptyList (some gatewayResp) none).err ≠ none := by decide

/-- Claim C2 (amended): for every response with a non-2xx status code —
excluding the case of status 502 with content type `text/html` — whose
content type matches the request's Accept header and whose body decodes to
a structured API error with zero reasons, the classifier returns the
response itself with a nil error, and classifying the returned response
again yields the same result. -/
theorem spec_C2_amended (decode : String → Option APIError) (r : Response)
    (apiError : APIError)
    (hstatus : r.StatusCode < 200 ∨ 300 ≤ r.StatusCode)
    (hnot502 : ¬(r.StatusCode = 502 ∧ r.ContentType = "text/html"))
    (hct : r.ContentType = expectedContentType r)
    (hdec : getAPIError decode r = some apiError)
    (hemp : apiError.Errors = []) :
    coupleAPIErrors decode (some r) none = ⟨some r, none, some r⟩
    ∧ coupleAPIErrors decode ((coupleAPIErrors decode (some r) none).resp) none
        = coupleAPIErrors decode (some r) none := by
  have h1 : coupleAPIErrors decode (some r) none = ⟨some r, none, some r⟩ := by
    have hcne : ¬(r.ContentType ≠ expectedContentType r) := not_not_intro hct
    simp [coupleAPIErrors, if_pos hstatus, if_neg hnot502, hcne, hdec, hemp]
  exact ⟨h1, by rw [h1]; exact h1⟩

/-- Witness for C2: a concrete 400 response whose body decodes to zero
reasons is returned with a nil error, and classifying it twice agrees. -/
theorem spec_C2_witness :
    coupleAPIErrors decodeEmptyList (some badRequestResp) none
        = ⟨some badRequestResp, none, some badRequestResp⟩
    ∧ coupleAPIErrors decodeEmptyList
        ((coupleAPIErrors decodeEmptyList (some badRequestResp) none).resp) none
        = coupleAPIErrors decodeEmptyList (some badRequestResp) none :=
  spec_C2_amended decodeEmptyList badRequestResp ⟨[]⟩
    (by decide) (by decide) (by decide) (by decide) rfl

end Linodego
